import Mathlib

/-!
Verification of the classification and zone-allocation engine of the
db-ensym repository.

The repository carries two implementations of the engine:

* the package db_nvrmap/core.py (entry point of the CLI and the web
  front end), embedded below in namespace Core;
* the standalone script db-nvrmap.py, whose helper functions
  (generate_zone_id, format_bioevc, calculate_site_id, lookup_bcs_value)
  are the ones exercised by the test suite, embedded in namespace Script.

Strings are modelled by Lean String (a structure over List Char),
machine floats that only ever hold small decimal scores by Rat,
geometries by an opaque Nat handle plus a Rat area, and fallible
code by Option or Except.
-/

/-- Whitespace test matching the characters stripped by the Python
str.strip method for the data that occurs in this program. -/
def isWs (c : Char) : Bool :=
  c = ' ' || c = '\t' || c = '\n' || c = '\r'

/-- Drops leading whitespace characters. -/
def dropLeadWs : List Char → List Char
  | [] => []
  | c :: rest => if isWs c then dropLeadWs rest else c :: rest

/-- Model of the Python str.strip method: removes whitespace from both
ends of a string. -/
def pyStrip (s : String) : String :=
  String.mk (dropLeadWs (dropLeadWs s.data.reverse).reverse)

/-- Containment of one character list inside another, used to model the
pandas Series.str.contains test (the codes searched for in this program
contain no regex metacharacters, so containment is plain substring
search). -/
def containsSub (needle : List Char) : List Char → Bool
  | [] => needle.isEmpty
  | c :: rest => needle.isPrefixOf (c :: rest) || containsSub needle rest

/-- True when the string hay contains needle as a substring. -/
def strContains (hay needle : String) : Bool :=
  containsSub needle.data hay.data

/-- Model of str(int(evc)).zfill(4): decimal digits left padded with
zeros to width 4. -/
def zfill4 (n : Nat) : String :=
  let s := toString n
  if s.length < 4 then String.mk (List.replicate (4 - s.length) '0' ++ s.data) else s

/-- One row of the benchmark table loaded from the Excel resource:
the BIOEVCCODE key column and the BCS_CATEGORY status column.  A status
cell holding NaN or None is modelled as none. -/
structure BenchRow where
  key : String
  status : Option String
deriving DecidableEq

/-- First row of the benchmark table whose key contains the given code
as a substring, as selected by evc_df[evc_df[BIOEVCCODE].str.contains(bioevc)].iloc[0]
in both implementations. -/
def bcs_match (evc_df : List BenchRow) (bioevc : String) : Option BenchRow :=
  evc_df.find? (fun r => strContains r.key bioevc)

/-- One input polygon record as delivered by the spatial query:
parent parcel id, bioregion code, vegetation class number, an opaque
geometry handle and the geometry area in square meters. -/
structure InputRow where
  view_pfi : String
  bioregcode : String
  evc : Nat
  geom : Nat
  area : ℚ

/-- Static configuration attributes read from config.json plus the two
formatted renderings of the current date (external clock). -/
structure Config where
  project : String
  collector : String
  default_habitat_score : ℚ
  default_gain_score : ℚ
  today_iso : String
  today_compact : String

/-- Python truthiness of an optional float: None and 0.0 are falsy. -/
def pyTruthy (x : Option ℚ) : Bool :=
  match x with
  | none => false
  | some g => if g = 0 then false else true

/-- Gain score field as computed in build_ensym_gdf (core.py lines
295 to 298) and build_nvrmap_gdf (lines 338 to 341): the caller
override is used only when it is truthy, otherwise the configured
default applies. -/
def gain_score_field (gainscore : Option ℚ) (default_gain : ℚ) : ℚ :=
  if pyTruthy gainscore then gainscore.getD default_gain else default_gain

namespace Script

/-- Embedding of generate_zone_id from db-nvrmap.py: counts up to 26
map to a single letter, larger counts to two letters by bijective
base-26 conversion. -/
def generate_zone_id (count : List Nat) (si : Nat) : String :=
  let counter := count.getD (si - 1) 0
  if counter ≤ 26 then
    String.mk [Char.ofNat (64 + counter)]
  else
    let c0 := counter - 1
    String.mk [Char.ofNat (65 + c0 / 26 - 1), Char.ofNat (65 + c0 % 26)]

/-- Embedding of format_bioevc from db-nvrmap.py. -/
def format_bioevc (bioregcode : String) (evc : Nat) : String :=
  let evc_padded := zfill4 evc
  if bioregcode.length ≤ 3 then bioregcode ++ "_" ++ evc_padded
  else bioregcode ++ evc_padded

/-- Embedding of calculate_site_id from db-nvrmap.py: 1-based index in
the batch, 1 for a single-element batch, and 1 (after a logged warning)
when the id is missing from a multi-element batch. -/
def calculate_site_id (view_pfi_list : List String) (view_pfi : String) : Nat :=
  if view_pfi_list.length > 1 then
    match view_pfi_list.findIdx? (fun p => p = view_pfi) with
    | some i => i + 1
    | none => 1
  else 1

/-- Post-processing of a matched status cell in lookup_bcs_value from
db-nvrmap.py: None, blank after stripping, or TBC after stripping give
LC; the exact value LC passes through; anything else is cut to its
first character. -/
def bcs_post : Option String → String
  | none => "LC"
  | some s =>
    if pyStrip s = "" || pyStrip s = "TBC" then "LC"
    else if s ≠ "LC" then String.mk (s.data.take 1)
    else s

/-- Embedding of lookup_bcs_value from db-nvrmap.py. -/
def lookup_bcs_value (bioevc : String) (evc_df : List BenchRow) : String :=
  match bcs_match evc_df bioevc with
  | none => "LC"
  | some r => bcs_post r.status

end Script

namespace Core

/-- Embedding of generate_zone_id from db_nvrmap/core.py: counts up to
26 map to a single letter; larger counts map to the letter at position
count minus 26 repeated twice. -/
def generate_zone_id (count : List Nat) (si : Nat) : String :=
  let c := count.getD (si - 1) 0
  if c ≤ 26 then
    String.mk [Char.ofNat (64 + c)]
  else
    String.mk [Char.ofNat (64 + c - 26), Char.ofNat (64 + c - 26)]

/-- Combined code as built inline in process_nvrmap_rows of core.py
(if then else on a 3-character boundary). -/
def nvrmap_bioevc (bioregcode : String) (evc : Nat) : String :=
  if bioregcode.length ≤ 3 then bioregcode ++ "_" ++ zfill4 evc
  else bioregcode ++ zfill4 evc

/-- Combined code as built inline in process_ensym_rows of core.py:
two sequential if statements initialise from the empty string, cover
lengths up to 3 and exactly 4, and leave longer codes empty. -/
def ensym_bioevc (bioregcode : String) (evc : Nat) : String :=
  let b0 := ""
  let b1 := if bioregcode.length ≤ 3 then bioregcode ++ "_" ++ zfill4 evc else b0
  if bioregcode.length = 4 then bioregcode ++ zfill4 evc else b1

/-- Site index as computed inline in both process functions of core.py:
for a multi-element batch the Python list.index call raises ValueError
when the id is absent, modelled as none. -/
def site_id (view_pfi_list : List String) (view_pfi : String) : Option Nat :=
  if view_pfi_list.length > 1 then
    (view_pfi_list.findIdx? (fun p => p = view_pfi)).map (fun i => i + 1)
  else some 1

/-- Post-processing of a matched status cell in process_ensym_rows of
core.py: None, the empty string, or the exact value TBC give LC; any
other value different from LC is cut to its first character.  No
whitespace stripping is performed. -/
def bcs_post : Option String → String
  | none => "LC"
  | some s =>
    if s = "" || s = "TBC" then "LC"
    else if s ≠ "LC" then String.mk (s.data.take 1)
    else s

/-- Conservation status lookup as performed inline in
process_ensym_rows of core.py. -/
def bcs_of (bioevc : String) (evc_df : List BenchRow) : String :=
  match bcs_match evc_df bioevc with
  | none => "LC"
  | some r => bcs_post r.status

/-- One step of process_nvrmap_rows from core.py: resolve the site,
bump its counter, render the zone label from the updated counter and
build the combined code.  Returns the produced triple (or none when
list.index raised) together with the updated counter state. -/
def process_nvrmap_row (view_pfi_list : List String) (count : List Nat)
    (row : InputRow) : Option (Nat × String × String) × List Nat :=
  match site_id view_pfi_list row.view_pfi with
  | none => (none, count)
  | some si =>
    let count1 := count.set (si - 1) (count.getD (si - 1) 0 + 1)
    let zi := generate_zone_id count1 si
    let bioevc := nvrmap_bioevc row.bioregcode row.evc
    (some (si, zi, bioevc), count1)

/-- Sequential application of process_nvrmap_row over the ordered input
rows, threading the per-site counter state, as done by the pandas apply
call in build_nvrmap_gdf. -/
def process_nvrmap_all (view_pfi_list : List String) :
    List Nat → List InputRow → Option (List (Nat × String × String))
  | _, [] => some []
  | count, r :: rs =>
    match process_nvrmap_row view_pfi_list count r with
    | (none, _) => none
    | (some out, count1) =>
      (process_nvrmap_all view_pfi_list count1 rs).map (fun outs => out :: outs)

/-- Full classification pass of the PlainMap path: counters start at
zero, one counter per batch entry. -/
def process_all (view_pfi_list : List String) (rows : List InputRow) :
    Option (List (Nat × String × String)) :=
  process_nvrmap_all view_pfi_list (List.replicate view_pfi_list.length 0) rows

/-- One step of process_ensym_rows from core.py. -/
def process_ensym_row (evc_df : List BenchRow) (view_pfi_list : List String)
    (count : List Nat) (row : InputRow) :
    Option (Nat × String × String × String) × List Nat :=
  let bioevc := ensym_bioevc row.bioregcode row.evc
  let bcs := bcs_of bioevc evc_df
  match site_id view_pfi_list row.view_pfi with
  | none => (none, count)
  | some si =>
    let count1 := count.set (si - 1) (count.getD (si - 1) 0 + 1)
    let zi := generate_zone_id count1 si
    (some (si, zi, bioevc, bcs), count1)

/-- Sequential application of process_ensym_row over the ordered input
rows. -/
def process_ensym_all (evc_df : List BenchRow) (view_pfi_list : List String) :
    List Nat → List InputRow → Option (List (Nat × String × String × String))
  | _, [] => some []
  | count, r :: rs =>
    match process_ensym_row evc_df view_pfi_list count r with
    | (none, _) => none
    | (some out, count1) =>
      (process_ensym_all evc_df view_pfi_list count1 rs).map (fun outs => out :: outs)

end Core

/-- Heterogeneous cell value of an output table column. -/
inductive Val where
  | str (v : String)
  | nat (v : Nat)
  | rat (v : ℚ)
  | geo (v : Nat)
deriving DecidableEq

/-- One row of the EnSym 2017 output table as assembled by
build_ensym_gdf of core.py before any SBEU projection. -/
structure EnsymRow where
  HH_PAI : String
  HH_D : String
  HH_CP : String
  HH_SI : Nat
  HH_ZI : String
  HH_VAC : String
  HH_EVC : String
  BCS : String
  LT_CNT : Nat
  HH_H_S : ℚ
  G_S : ℚ
  HH_A : ℚ
  geom : Nat
deriving DecidableEq

/-- One row of the NVRMap output table as assembled by
build_nvrmap_gdf of core.py. -/
structure NvrmapRow where
  site_id : Nat
  zone_id : String
  prop_id : String
  vlot : Nat
  lot : Nat
  recruits : Nat
  type : String
  cp : String
  veg_codes : String
  lt_count : Nat
  cond_score : ℚ
  gain_score : ℚ
  surv_date : String
  geom : Nat
deriving DecidableEq

/-- Columns of an EnSym 2017 row in the order produced by
build_ensym_gdf after the rotation that moves the geometry column to
the end (core.py lines 303 to 305). -/
def detailed_columns (r : EnsymRow) : List (String × Val) :=
  [("HH_PAI", Val.str r.HH_PAI), ("HH_D", Val.str r.HH_D), ("HH_CP", Val.str r.HH_CP),
   ("HH_SI", Val.nat r.HH_SI), ("HH_ZI", Val.str r.HH_ZI), ("HH_VAC", Val.str r.HH_VAC),
   ("HH_EVC", Val.str r.HH_EVC), ("BCS", Val.str r.BCS), ("LT_CNT", Val.nat r.LT_CNT),
   ("HH_H_S", Val.rat r.HH_H_S), ("G_S", Val.rat r.G_S), ("HH_A", Val.rat r.HH_A),
   ("geom", Val.geo r.geom)]

/-- Columns of an NVRMap row in the fixed order set by
build_nvrmap_gdf (core.py lines 344 to 345). -/
def nvrmap_columns (r : NvrmapRow) : List (String × Val) :=
  [("site_id", Val.nat r.site_id), ("zone_id", Val.str r.zone_id),
   ("prop_id", Val.str r.prop_id), ("vlot", Val.nat r.vlot), ("lot", Val.nat r.lot),
   ("recruits", Val.nat r.recruits), ("type", Val.str r.type), ("cp", Val.str r.cp),
   ("veg_codes", Val.str r.veg_codes), ("lt_count", Val.nat r.lt_count),
   ("cond_score", Val.rat r.cond_score), ("gain_score", Val.rat r.gain_score),
   ("surv_date", Val.str r.surv_date), ("geom", Val.geo r.geom)]

/-- Model of the pandas drop call: removes the named columns. -/
def dropCols (names : List String) (cols : List (String × Val)) : List (String × Val) :=
  cols.filter (fun c => !(names.contains c.1))

/-- Model of the pandas rename call: renames one column, keeping its
value. -/
def renameCol (old new : String) (cols : List (String × Val)) : List (String × Val) :=
  cols.map (fun c => if c.1 = old then (new, c.2) else c)

/-- Model of column selection by a list of names, as in indexing a
dataframe with a list of column labels. -/
def selectCols (names : List String) (cols : List (String × Val)) : List (String × Val) :=
  names.filterMap (fun n => (cols.find? (fun c => c.1 = n)).map (fun c => (n, c.2)))

/-- Column order fixed by the SBEU branch of build_ensym_gdf
(core.py lines 311 to 312). -/
def legacyOrder : List String :=
  ["HH_PAI", "HH_SI", "HH_ZI", "HH_VAC", "HH_CP", "HH_D", "HH_H_S", "G_HA", "HH_A", "geom"]

/-- SBEU projection of an EnSym row, exactly as the SBEU branch of
build_ensym_gdf applies it to the dataframe: drop HH_EVC, BCS and
LT_CNT, rename G_S to G_HA, then select the fixed column order. -/
def build_legacy_columns (r : EnsymRow) : List (String × Val) :=
  selectCols legacyOrder
    (renameCol "G_S" "G_HA" (dropCols ["HH_EVC", "BCS", "LT_CNT"] (detailed_columns r)))

namespace Core

/-- Output format selector of core.py. -/
inductive OutputFormat where
  | nvrmap
  | ensym_2017
  | ensym_2013
deriving DecidableEq

/-- Processing options of core.py restricted to the fields the
classification engine reads (the batch arrives separately after
process_view_pfis). -/
structure ProcessingOptions where
  output_format : OutputFormat
  gainscore : Option ℚ

/-- Model of the ensym property of ProcessingOptions. -/
def ProcessingOptions.ensym (o : ProcessingOptions) : Bool :=
  match o.output_format with
  | OutputFormat.ensym_2017 => true
  | _ => false

/-- Model of the sbeu property of ProcessingOptions. -/
def ProcessingOptions.sbeu (o : ProcessingOptions) : Bool :=
  match o.output_format with
  | OutputFormat.ensym_2013 => true
  | _ => false

/-- Embedding of load_geo_dataframe from core.py: an empty result set
raises ValueError before any further processing. -/
def load_geo_dataframe (rows : List InputRow) : Except String (List InputRow) :=
  if rows.isEmpty then
    Except.error "No search results found. Check your View PFI values."
  else Except.ok rows

/-- Embedding of load_evc_data from core.py: pd.read_excel raises when
the benchmark workbook is absent, modelled by an absent table. -/
def load_evc_data (source : Option (List BenchRow)) : Except String (List BenchRow) :=
  match source with
  | none => Except.error "Excel benchmark file not found"
  | some t => Except.ok t

/-- Embedding of build_nvrmap_gdf from core.py at the row level. -/
def build_nvrmap_gdf (input_gdf : List InputRow) (view_pfi_list : List String)
    (config : Config) (opts : ProcessingOptions) : Option (List NvrmapRow) :=
  (process_all view_pfi_list input_gdf).map (fun procs =>
    (input_gdf.zip procs).map (fun p =>
      match p with
      | (r, si, zi, bioevc) =>
        { site_id := si, zone_id := zi, prop_id := config.project,
          vlot := 0, lot := 0, recruits := 0, type := "p",
          cp := config.collector, veg_codes := bioevc, lt_count := 0,
          cond_score := config.default_habitat_score,
          gain_score := gain_score_field opts.gainscore config.default_gain_score,
          surv_date := config.today_compact, geom := r.geom }))

/-- Embedding of build_ensym_gdf from core.py at the row level, before
the SBEU projection. -/
def build_ensym_gdf (input_gdf : List InputRow) (evc_df : List BenchRow)
    (view_pfi_list : List String) (config : Config) (opts : ProcessingOptions) :
    Option (List EnsymRow) :=
  (process_ensym_all evc_df view_pfi_list
      (List.replicate view_pfi_list.length 0) input_gdf).map (fun procs =>
    (input_gdf.zip procs).map (fun p =>
      match p with
      | (r, si, zi, bioevc, bcs) =>
        { HH_PAI := config.project, HH_D := config.today_iso,
          HH_CP := config.collector, HH_SI := si, HH_ZI := zi, HH_VAC := "P",
          HH_EVC := bioevc, BCS := bcs, LT_CNT := 0,
          HH_H_S := config.default_habitat_score,
          G_S := gain_score_field opts.gainscore config.default_gain_score,
          HH_A := r.area / 10000, geom := r.geom }))

/-- Embedding of select_output_gdf from core.py, projected to column
lists: the SBEU and EnSym flags pick the EnSym builder (with the SBEU
projection applied for 2013 output), everything else the NVRMap
builder. -/
def select_output_gdf (opts : ProcessingOptions) (input_gdf : List InputRow)
    (evc_df : List BenchRow) (view_pfis : List String) (config : Config) :
    Option (List (List (String × Val))) :=
  if opts.sbeu || opts.ensym then
    (build_ensym_gdf input_gdf evc_df view_pfis config opts).map (fun rows =>
      if opts.sbeu then rows.map build_legacy_columns else rows.map detailed_columns)
  else
    (build_nvrmap_gdf input_gdf view_pfis config opts).map (fun rows =>
      rows.map nvrmap_columns)

/-- Embedding of the generate_shapefile orchestrator of core.py after
the external database stages: load the spatial rows (abort on empty),
load the benchmark workbook unconditionally (abort when absent), then
classify and project.  A ValueError escaping the classification stage
(missing parcel id in a multi-element batch) propagates as an error. -/
def generate_shapefile (opts : ProcessingOptions) (rows : List InputRow)
    (evc_source : Option (List BenchRow)) (view_pfis : List String)
    (config : Config) : Except String (List (List (String × Val))) :=
  match load_geo_dataframe rows with
  | Except.error e => Except.error e
  | Except.ok input_gdf =>
    match load_evc_data evc_source with
    | Except.error e => Except.error e
    | Except.ok evc_df =>
      match select_output_gdf opts input_gdf evc_df view_pfis config with
      | none => Except.error "ValueError: view PFI is not in list"
      | some out => Except.ok out

end Core

/-- True exactly on a successful Except result. -/
def exceptIsOk {α : Type} (e : Except String α) : Bool :=
  match e with
  | Except.ok _ => true
  | Except.error _ => false

/-!
Theorems, one per claim.
-/

/-- Claim C1.  The claim states that successive zone allocations follow
Excel style bijective base-26, with allocation 28 yielding AB, 52
yielding AZ and 53 yielding BA.  The tested script implementation in
db-nvrmap.py does exactly that, but the package implementation in
db_nvrmap/core.py repeats a single letter instead: allocation 28 yields
BB, 52 yields ZZ, and 53 yields the doubled character after Z.  This
theorem evaluates both implementations at the boundary allocations,
exhibiting the divergence of the package code from the claim and from
the repository test suite, which asserts the bijective labels. -/
theorem c1_zone_label_divergence :
    Script.generate_zone_id [1] 1 = "A"
    ∧ Script.generate_zone_id [26] 1 = "Z"
    ∧ Script.generate_zone_id [27] 1 = "AA"
    ∧ Script.generate_zone_id [28] 1 = "AB"
    ∧ Script.generate_zone_id [52] 1 = "AZ"
    ∧ Script.generate_zone_id [53] 1 = "BA"
    ∧ Core.generate_zone_id [27] 1 = "AA"
    ∧ Core.generate_zone_id [28] 1 = "BB"
    ∧ Core.generate_zone_id [52] 1 = "ZZ"
    ∧ Core.generate_zone_id [53] 1 = "[[" := by
  decide

/-- Claim C2.  The claim states that a parcel id absent from a
multi-element batch resolves to site 1 with a warning and the run
continues.  The script helper calculate_site_id does fall back to 1,
and the repository tests assert it, but the package code in core.py
calls list.index without a handler, so the run aborts with ValueError:
the classification pass over a row whose parcel id is missing returns
no result at all. -/
theorem c2_site_miss_divergence :
    Core.process_all ["123456", "789012"] [⟨"555555", "GGP", 175, 0, 0⟩] = none
    ∧ Script.calculate_site_id ["123456", "789012"] "555555" = 1 := by
  decide

/-- Claim C3.  The claim states that a matched status value that is
blank after trimming whitespace yields LC.  The script helper
lookup_bcs_value strips the value and does return LC, as the test suite
asserts, but the package code in core.py omits the strip, so a
whitespace-only status value falls through to the first-character
branch and a single space is emitted instead of LC.  The remaining
conjuncts check the four benchmark examples of the claim against the
script implementation. -/
theorem c3_lookup_trim_divergence :
    Script.lookup_bcs_value "VVP_0055" [⟨"VVP_0055", some "   "⟩] = "LC"
    ∧ Core.bcs_of "VVP_0055" [⟨"VVP_0055", some "   "⟩] = " "
    ∧ Script.lookup_bcs_value "VVP_0055"
        [⟨"VVP_0055", some "Endangered"⟩, ⟨"VVP_0002", some "LC"⟩,
         ⟨"VVP_0003", some "TBC"⟩] = "E"
    ∧ Script.lookup_bcs_value "VVP_0002"
        [⟨"VVP_0055", some "Endangered"⟩, ⟨"VVP_0002", some "LC"⟩,
         ⟨"VVP_0003", some "TBC"⟩] = "LC"
    ∧ Script.lookup_bcs_value "VVP_0003"
        [⟨"VVP_0055", some "Endangered"⟩, ⟨"VVP_0002", some "LC"⟩,
         ⟨"VVP_0003", some "TBC"⟩] = "LC"
    ∧ Script.lookup_bcs_value "NOPE"
        [⟨"VVP_0055", some "Endangered"⟩, ⟨"VVP_0002", some "LC"⟩,
         ⟨"VVP_0003", some "TBC"⟩] = "LC"
    ∧ Core.bcs_of "VVP_0055" [⟨"VVP_0055", some "Endangered"⟩] = "E" := by
  decide

/-- Claim C4.  The claim states that a bioregion code longer than 3
characters is concatenated directly with the padded class number.  The
script helper format_bioevc does so for every length above 3, and the
test suite asserts it for a 5-character code, but the EnSym path of
core.py covers only lengths up to 3 and exactly 4, leaving the combined
code empty for a 5-character bioregion code. -/
theorem c4_combined_code_divergence :
    Script.format_bioevc "VVP" 55 = "VVP_0055"
    ∧ Script.format_bioevc "STIF" 132 = "STIF0132"
    ∧ Script.format_bioevc "V" 5 = "V_0005"
    ∧ Script.format_bioevc "STIFX" 55 = "STIFX0055"
    ∧ Core.ensym_bioevc "STIFX" 55 = ""
    ∧ Core.ensym_bioevc "STIF" 132 = "STIF0132"
    ∧ Core.ensym_bioevc "VVP" 55 = "VVP_0055"
    ∧ Core.nvrmap_bioevc "STIFX" 55 = "STIFX0055" := by
  decide

/-- Claim C5.  For the batch of parcels 123456 and 789012 and the three
input rows of the scenario, the classification pass of core.py produces
site ids 1, 2, 1, zone ids A, A, B and combined codes VVP_0055,
STIF0132, GGP_0175, in row order. -/
theorem c5_end_to_end_scenario :
    Core.process_all ["123456", "789012"]
      [⟨"123456", "VVP", 55, 0, 0⟩, ⟨"789012", "STIF", 132, 1, 0⟩,
       ⟨"123456", "GGP", 175, 2, 0⟩] =
      some [(1, "A", "VVP_0055"), (2, "A", "STIF0132"), (1, "B", "GGP_0175")] := by
  decide

/-- Claim C6.  A run whose input polygon sequence is empty aborts with
the no-results error raised by load_geo_dataframe, for every option
set, benchmark source and configuration: the pipeline never reaches
classification or output projection and never returns a successful
(empty) output table. -/
theorem c6_empty_input_aborts (opts : Core.ProcessingOptions)
    (evc_source : Option (List BenchRow)) (view_pfis : List String)
    (config : Config) :
    Core.generate_shapefile opts [] evc_source view_pfis config =
      Except.error "No search results found. Check your View PFI values." := rfl

/-- Claim C7 counterexample.  The claim states that absence of the
benchmark tabular resource is non-fatal for the PlainMap default mode.
In the code the benchmark workbook is loaded unconditionally before the
output format is consulted, so a PlainMap run over a nonempty input
with the benchmark absent errors out instead of completing; the same
run with any benchmark table present (here an empty one) completes. -/
theorem c7_benchmark_absence_fatal_in_plainmap :
    Core.generate_shapefile ⟨Core.OutputFormat.nvrmap, none⟩
        [⟨"123456", "VVP", 55, 0, 0⟩] none ["123456"]
        ⟨"P", "C", 1/2, 11/50, "2026-10-12", "20261012"⟩ =
      Except.error "Excel benchmark file not found"
    ∧ exceptIsOk (Core.generate_shapefile ⟨Core.OutputFormat.nvrmap, none⟩
        [⟨"123456", "VVP", 55, 0, 0⟩] (some []) ["123456"]
        ⟨"P", "C", 1/2, 11/50, "2026-10-12", "20261012"⟩) = true := by
  exact ⟨rfl, rfl⟩

/-- Claim C7 amended.  Absence of the benchmark tabular resource is
fatal for every run over a nonempty input, in every output mode
including the PlainMap default, because the pipeline loads the workbook
unconditionally before selecting the output format. -/
theorem c7_benchmark_absence_fatal_everywhere (opts : Core.ProcessingOptions)
    (rows : List InputRow) (view_pfis : List String) (config : Config)
    (h : rows ≠ []) :
    Core.generate_shapefile opts rows none view_pfis config =
      Except.error "Excel benchmark file not found" := by
  cases rows with
  | nil => exact absurd rfl h
  | cons r rs => rfl

/-- Claim C7 amended, witness. -/
theorem c7_benchmark_absence_fatal_everywhere_witness :
    Core.generate_shapefile ⟨Core.OutputFormat.nvrmap, none⟩
        [⟨"123456", "VVP", 55, 0, 0⟩] none ["123456"]
        ⟨"P", "C", 1/2, 11/50, "2026-10-12", "20261012"⟩ =
      Except.error "Excel benchmark file not found" :=
  c7_benchmark_absence_fatal_everywhere ⟨Core.OutputFormat.nvrmap, none⟩
    [⟨"123456", "VVP", 55, 0, 0⟩] ["123456"]
    ⟨"P", "C", 1/2, 11/50, "2026-10-12", "20261012"⟩ (List.cons_ne_nil _ _)

/-- Claim C8.  The SBEU (LegacyReport) projection of an EnSym 2017
(DetailedReport) row, exactly as the SBEU branch of build_ensym_gdf
performs it, equals the detailed row with precisely HH_EVC, BCS and
LT_CNT dropped and G_S renamed to G_HA carrying the unchanged gain
value, every other value unchanged, arranged in the fixed nine-field
order ending in the geometry column. -/
theorem c8_legacy_is_detailed_projection (r : EnsymRow) :
    build_legacy_columns r =
      [("HH_PAI", Val.str r.HH_PAI), ("HH_SI", Val.nat r.HH_SI),
       ("HH_ZI", Val.str r.HH_ZI), ("HH_VAC", Val.str r.HH_VAC),
       ("HH_CP", Val.str r.HH_CP), ("HH_D", Val.str r.HH_D),
       ("HH_H_S", Val.rat r.HH_H_S), ("G_HA", Val.rat r.G_S),
       ("HH_A", Val.rat r.HH_A), ("geom", Val.geo r.geom)] := rfl

/-- Claim C9.  The conservation-status lookup is first-match-wins in
table order: whenever every row of a prefix fails the substring test,
the next row matches, and some later row also matches (for instance an
exact match), both implementations return the status derived from that
first matching row, ignoring all later rows. -/
theorem c9_first_match_wins (pre post : List BenchRow) (r : BenchRow)
    (code : String)
    (hpre : ∀ p ∈ pre, strContains p.key code = false)
    (hr : strContains r.key code = true)
    (_hpost : ∃ q ∈ post, strContains q.key code = true) :
    Core.bcs_of code (pre ++ r :: post) = Core.bcs_post r.status
    ∧ Script.lookup_bcs_value code (pre ++ r :: post) = Script.bcs_post r.status := by
  have hnone : pre.find? (fun x => strContains x.key code) = none := by
    rw [List.find?_eq_none]
    intro x hx
    simp [hpre x hx]
  have hmatch : bcs_match (pre ++ r :: post) code = some r := by
    unfold bcs_match
    rw [List.find?_append, hnone]
    simp [hr]
  constructor
  · unfold Core.bcs_of
    rw [hmatch]
  · unfold Script.lookup_bcs_value
    rw [hmatch]

/-- Claim C9 witness: on the table holding VVP_0055 (Endangered) before
VVP_00551 (Rare), looking up the short code VVP_005 returns the status
of the first row even though the later row also contains the code. -/
theorem c9_first_match_wins_witness :
    Core.bcs_of "VVP_005"
      [⟨"VVP_0055", some "Endangered"⟩, ⟨"VVP_00551", some "Rare"⟩] = "E" := by
  have h := c9_first_match_wins [] [⟨"VVP_00551", some "Rare"⟩]
    ⟨"VVP_0055", some "Endangered"⟩ "VVP_005"
    (by intro p hp; simp at hp) (by decide)
    ⟨⟨"VVP_00551", some "Rare"⟩, by simp, by decide⟩
  exact h.1.trans (by decide)

/-- Claim C10.  The gain-score field of both output builders treats the
caller override with Python truthiness: an override of zero (like an
absent override) is replaced by the configured default gain score, and
only a nonzero override value reaches the output. -/
theorem c10_zero_gainscore_uses_default (d : ℚ) :
    gain_score_field (some 0) d = d
    ∧ gain_score_field none d = d
    ∧ ∀ g : ℚ, g ≠ 0 → gain_score_field (some g) d = g := by
  refine ⟨rfl, rfl, ?_⟩
  intro g hg
  simp [gain_score_field, pyTruthy, hg]

/-- Claim C10 witness: with default 11/50, the zero override and the
absent override both yield 11/50, while the override 3/4 is kept. -/
theorem c10_zero_gainscore_uses_default_witness :
    gain_score_field (some 0) (11/50) = 11/50
    ∧ gain_score_field none (11/50) = 11/50
    ∧ gain_score_field (some (3/4)) (11/50) = 3/4 := by
  have h := c10_zero_gainscore_uses_default (11/50)
  exact ⟨h.1, h.2.1, h.2.2 (3/4) (by norm_num)⟩
